import Mathlib

/-!
Verification of the core of `brawlstars.js` (`src/Client.js`): a shallow
embedding in Lean 4 of the client facade, its tag normalization routine,
its query construction and its response mapping, together with theorems
settling the specified properties.

The only source file of the repository is `src/Client.js`; the helper
modules it requires (`./utils` and `./structures/{Player,Club}.js`) are
not part of the sources, so those definitions are modelled from the
specification and are marked as such in their doc comments.
-/

namespace BrawlStars

/-- JavaScript values that can flow into the client's argument positions
in the code under verification: numbers (modelled as integers — the
special floating value `NaN` is not representable in this embedding),
strings, and `undefined` for an absent argument or option field. -/
inductive JSVal where
  | num (n : Int)
  | str (s : String)
  | undef
  deriving DecidableEq, Repr

/-- JavaScript truthiness restricted to the embedded value domain:
`0`, the empty string and `undefined` are falsy, everything else truthy. -/
def truthy : JSVal → Bool
  | .num n => n != 0
  | .str s => !s.isEmpty
  | .undef => false

/-- One step of `List Char` digit scanning: the longest prefix of decimal
digits together with the rest of the input. -/
def takeDigits : List Char → List Char × List Char
  | [] => ([], [])
  | c :: cs =>
    if c.isDigit then
      let p := takeDigits cs
      (c :: p.1, p.2)
    else ([], c :: cs)

/-- Recognizes a JavaScript `ExponentPart`: `e` or `E`, an optional sign,
and a nonempty run of digits consuming the whole rest of the input. -/
def expPart : List Char → Bool
  | [] => true
  | c :: cs =>
    if c = 'e' ∨ c = 'E' then
      let cs' : List Char :=
        match cs with
        | s :: rest => if s = '+' ∨ s = '-' then rest else s :: rest
        | [] => []
      let p := takeDigits cs'
      !p.1.isEmpty && p.2.isEmpty
    else false

/-- Recognizes a JavaScript `StrUnsignedDecimalLiteral`: `Infinity`, or
digits with an optional fraction and optional exponent (at least one digit
somewhere around the decimal point). -/
def unsignedDecimal (cs : List Char) : Bool :=
  if cs = "Infinity".toList then true
  else
    let p := takeDigits cs
    match p.2 with
    | '.' :: rest =>
      let q := takeDigits rest
      (!p.1.isEmpty || !q.1.isEmpty) && expPart q.2
    | rest => !p.1.isEmpty && expPart rest

/-- Strips a single leading `+` or `-` sign. -/
def stripNumSign : List Char → List Char
  | '+' :: cs => cs
  | '-' :: cs => cs
  | cs => cs

/-- Recognizes a JavaScript `NonDecimalIntegerLiteral`: `0x`/`0X` hex,
`0o`/`0O` octal or `0b`/`0B` binary with a nonempty digit run. -/
def nonDecimalLiteral : List Char → Bool
  | '0' :: b :: rest =>
    if b = 'x' ∨ b = 'X' then
      !rest.isEmpty && rest.all (fun c =>
        c.isDigit ∨ ('a' ≤ c ∧ c ≤ 'f') ∨ ('A' ≤ c ∧ c ≤ 'F'))
    else if b = 'o' ∨ b = 'O' then !rest.isEmpty && rest.all (fun c => '0' ≤ c ∧ c ≤ '7')
    else if b = 'b' ∨ b = 'B' then !rest.isEmpty && rest.all (fun c => c = '0' ∨ c = '1')
    else false
  | _ => false

/-- The whitespace characters stripped by JavaScript string-to-number
coercion (the common ASCII ones). -/
def jsWhitespace (c : Char) : Bool :=
  c = ' ' ∨ c = '\t' ∨ c = '\n' ∨ c = '\r' ∨ c = '\x0b' ∨ c = '\x0c'

/-- Whether `Number(s)` is not `NaN` in JavaScript: after trimming
whitespace, the string is empty (coerces to `0`) or is a numeric literal. -/
def isNumericString (s : String) : Bool :=
  let t := ((s.toList.dropWhile jsWhitespace).reverse.dropWhile jsWhitespace).reverse
  t.isEmpty || nonDecimalLiteral t || unsignedDecimal (stripNumSign t)

/-- The global `isNaN` applied to an embedded value: numbers are never
`NaN` here, a string is `NaN` exactly when it fails numeric coercion, and
`undefined` coerces to `NaN`. -/
def jsIsNaN : JSVal → Bool
  | .num _ => false
  | .str s => !isNumericString s
  | .undef => true

/-- Raw JSON values as delivered by the transport. -/
inductive Json where
  | obj (fields : List (String × Json))
  | arr (elems : List Json)
  | str (s : String)
  | num (n : Int)
  | bool (b : Bool)
  | null

/-- The failure values a call in `src/Client.js` can reject with. -/
inductive JSError where
  /-- The `Error("Missing Authorization Token.")` thrown by the constructor. -/
  | missingToken
  /-- The `Error("Invalid Tag.")` from `getPlayer` / `getClub`. -/
  | invalidTag
  /-- The `TypeError("Count must be a number.")` from the leaderboard methods. -/
  | countNotNumber
  /-- The `TypeError` raised by calling `.map` on a non-array response. -/
  | notAFunction
  /-- A failure raised by the transport itself (network error, non-2xx
  status, malformed JSON), carried opaquely. -/
  | external (msg : String)
  deriving DecidableEq, Repr

/-- One outbound request as assembled by `Client._get`: the full URL, the
query mapping handed to `.query(...)` and the headers set on the call. -/
structure Request where
  url : String
  query : List (String × JSVal)
  headers : List (String × String)

/-- The injected HTTP capability: given the assembled request, either the
parsed response body or a transport failure. -/
def Transport : Type := Request → Except JSError Json

/-- The client: holds the immutable authorization token
(`Object.defineProperty(this, "token", ...)` in the constructor). -/
structure Client where
  token : String
  deriving DecidableEq, Repr

/-- The constructor's options object: `options.token` may be absent. -/
structure Options where
  token : Option String
  deriving DecidableEq, Repr

/-- Embedding of `new Client(options = {})`: throws `Error("Missing Authorization
Token.")` when `options.token` is falsy (absent or empty), otherwise
produces the client holding the token. An omitted options argument is the
options object with no token. -/
def Client.new (options : Options) : Except JSError Client :=
  match options.token with
  | none => .error .missingToken
  | some t => if t.isEmpty then .error .missingToken else .ok ⟨t⟩

/-- Modelled from the spec: the repository's `src/utils.js` (required by
`Client.js` as `./utils`) is not among the sources. Per §3, the API's
accepted tag alphabet is the digits 0–9 and the uppercase letters from
the set `{0289PYLQGRJCUV}` (letters `P Y L Q G R J C U V`; `0 2 8 9` are
already digits). -/
def acceptedChars : List Char :=
  ['0', '1', '2', '3', '4', '5', '6', '7', '8', '9',
   'P', 'Y', 'L', 'Q', 'G', 'R', 'J', 'C', 'U', 'V']

/-- Modelled from the spec: membership of one character in the accepted
tag alphabet of §3. -/
def accepted (c : Char) : Bool :=
  decide (c ∈ acceptedChars)

/-- Modelled from the spec: the "strips a leading `#`" step of §4.1 —
removes a single `#` at the head of the character list, if present. -/
def stripHash : List Char → List Char
  | [] => []
  | c :: cs => if c = '#' then cs else c :: cs

/-- Modelled from the spec: per-character normalization of §4.1 —
uppercase the character, then rewrite `O` to `0`. -/
def normChar (c : Char) : Char :=
  let u := c.toUpper
  if u = 'O' then '0' else u

/-- Modelled from the spec: `clean(tag)` of §4.1 (`src/utils.js`) —
strips a leading `#`, uppercases all letters, and rewrites every `O` to
`0`. It does not re-validate. -/
def clean (tag : String) : String :=
  String.mk ((stripHash tag.toList).map normChar)

/-- Modelled from the spec: `validate(tag)` of §4.1 (`src/utils.js`) —
false if `tag` is empty or if, after stripping a leading `#`, any
character falls outside the accepted alphabet, with case folding and the
`O`→`0` substitution applied before the check; a pure predicate. -/
def validate (tag : String) : Bool :=
  !tag.isEmpty && (stripHash tag.toList).all (fun c => accepted (normChar c))

/-- The hypothesis of the spec's §8 tag property, as a predicate: the
string consists solely of the accepted alphabet after stripping a leading
`#` and case-folding with `O`→`0`. -/
def tagWellFormed (s : String) : Bool :=
  ((stripHash s.toList).map normChar).all accepted

/-- Modelled from the spec: `src/structures/Player.js` is not among the
sources; per §4.3 and §9 a domain object is an immutable wrapper around
one JSON record plus a non-owning back-reference to the client captured
at construction (`new Player(this, res)`). -/
structure Player where
  client : Client
  raw : Json

/-- Modelled from the spec: `src/structures/Club.js` is not among the
sources; same shape as `Player` (`new Club(this, res)`). -/
structure Club where
  client : Client
  raw : Json

/-- Embedding of `res.map((x) => ...)` on a raw response: succeeds with the mapped list
when the body is a JSON array, otherwise raises the `TypeError` JavaScript
produces for `.map` on a non-array. -/
def jsArrayMap (res : Json) (f : Json → α) : Except JSError (List α) :=
  match res with
  | .arr xs => .ok (xs.map f)
  | _ => .error .notAFunction

/-- Embedding of `Client.prototype._get(endpoint, query = {})`: composes the URL
`https://brawlapi.cf/api/${endpoint}`, attaches the query mapping and the
`Authorization` header, performs the call and resolves with the parsed
body. The second component records the requests issued (always exactly
one for `_get` itself). -/
def Client._get (c : Client) (τ : Transport) (endpoint : String)
    (query : List (String × JSVal)) : Except JSError Json × List Request :=
  let req : Request :=
    ⟨"https://brawlapi.cf/api/" ++ endpoint, query, [("Authorization", c.token)]⟩
  (τ req, [req])

/-- Field lookup on a JSON object, `none` when absent or not an object. -/
def Json.lookup : Json → String → Option Json
  | .obj fields, k => fields.lookup k
  | _, _ => none

/-- Embedding of `getEndpoints()`: requests the `""` discovery endpoint and projects
`res.data.endpoints` from the body. -/
def Client.getEndpoints (c : Client) (τ : Transport) :
    Except JSError (Option Json) × List Request :=
  let p := c._get τ "" []
  (p.1.map (fun res => (res.lookup "data").bind (fun d => d.lookup "endpoints")), p.2)

/-- Embedding of `getPlayer(tag)`: rejects with `Error("Invalid Tag.")` when the tag
fails validation (no request issued), otherwise requests the `player`
endpoint with `{ tag: clean(tag) }` and wraps the body in a `Player`. -/
def Client.getPlayer (c : Client) (τ : Transport) (tag : String) :
    Except JSError Player × List Request :=
  if !validate tag then (.error .invalidTag, [])
  else
    let p := c._get τ "player" [("tag", .str (clean tag))]
    (p.1.map (fun res => ⟨c, res⟩), p.2)

/-- Embedding of `getClub(tag)`: same guard as `getPlayer`, then the `club` endpoint
with `{ tag: clean(tag) }`, wrapping the body in a `Club`. -/
def Client.getClub (c : Client) (τ : Transport) (tag : String) :
    Except JSError Club × List Request :=
  if !validate tag then (.error .invalidTag, [])
  else
    let p := c._get τ "club" [("tag", .str (clean tag))]
    (p.1.map (fun res => ⟨c, res⟩), p.2)

/-- Embedding of `about()`: the `about` endpoint with the default empty query. -/
def Client.about (c : Client) (τ : Transport) :
    Except JSError Json × List Request :=
  c._get τ "about" []

/-- The options object destructured by `getTopPlayers({ count, brawler } = {})`. -/
structure TopOptions where
  count : JSVal
  brawler : JSVal
  deriving DecidableEq, Repr

/-- Embedding of `getTopPlayers({ count, brawler } = {})`: rejects with
`TypeError("Count must be a number.")` when `count` is truthy and
`isNaN(count)`; builds the query with `count` and then `brawler` included
only when truthy; requests `"/leaderboards/players"` (note the leading
slash in the source) and maps the array body into `Player`s. -/
def Client.getTopPlayers (c : Client) (τ : Transport) (opts : TopOptions) :
    Except JSError (List Player) × List Request :=
  if truthy opts.count && jsIsNaN opts.count then (.error .countNotNumber, [])
  else
    let query :=
      (if truthy opts.count then [("count", opts.count)] else []) ++
      (if truthy opts.brawler then [("brawler", opts.brawler)] else [])
    let p := c._get τ "/leaderboards/players" query
    (p.1.bind (fun res => jsArrayMap res (fun j => (⟨c, j⟩ : Player))), p.2)

/-- Embedding of `getTopClubs(count)`: same count guard; query contains `count` only
when truthy; requests `"/leaderboards/clubs"` (leading slash in the
source) and maps the array body into `Club`s. -/
def Client.getTopClubs (c : Client) (τ : Transport) (count : JSVal) :
    Except JSError (List Club) × List Request :=
  if truthy count && jsIsNaN count then (.error .countNotNumber, [])
  else
    let query := if truthy count then [("count", count)] else []
    let p := c._get τ "/leaderboards/clubs" query
    (p.1.bind (fun res => jsArrayMap res (fun j => (⟨c, j⟩ : Club))), p.2)

/-- Embedding of `_events(type)`: the `events` endpoint with `{ type }`. -/
def Client._events (c : Client) (τ : Transport) (type : String) :
    Except JSError Json × List Request :=
  c._get τ "events" [("type", .str type)]

/-- Embedding of `getUpcomingEvents()`. -/
def Client.getUpcomingEvents (c : Client) (τ : Transport) :
    Except JSError Json × List Request :=
  c._events τ "upcoming"

/-- Embedding of `getCurrentEvents()`. -/
def Client.getCurrentEvents (c : Client) (τ : Transport) :
    Except JSError Json × List Request :=
  c._events τ "current"

/-- Embedding of `getMisc()`: the `misc` endpoint with the default empty query. -/
def Client.getMisc (c : Client) (τ : Transport) :
    Except JSError Json × List Request :=
  c._get τ "misc" []

/-- Embedding of `clubSearch(query)`: the `clubSearch` endpoint with `{ query }` passed
through unvalidated, mapping the array body into `Club`s. -/
def Client.clubSearch (c : Client) (τ : Transport) (query : String) :
    Except JSError (List Club) × List Request :=
  let p := c._get τ "clubSearch" [("query", .str query)]
  (p.1.bind (fun res => jsArrayMap res (fun j => (⟨c, j⟩ : Club))), p.2)

/-! ## Helper lemmas -/

theorem accepted_iff_mem (c : Char) : accepted c = true ↔ c ∈ acceptedChars := by
  simp [accepted]

theorem normChar_of_accepted (c : Char) (h : accepted c = true) : normChar c = c := by
  have hm : c ∈ acceptedChars := (accepted_iff_mem c).mp h
  have hall : ∀ d ∈ acceptedChars, normChar d = d := by decide
  exact hall c hm

theorem ne_hash_of_accepted (c : Char) (h : accepted c = true) : c ≠ '#' := by
  have hm : c ∈ acceptedChars := (accepted_iff_mem c).mp h
  have hall : ∀ d ∈ acceptedChars, d ≠ '#' := by decide
  exact hall c hm

theorem map_normChar_of_all_accepted (ys : List Char) (h : ys.all accepted = true) :
    ys.map normChar = ys := by
  induction ys with
  | nil => rfl
  | cons y ys ih =>
    rw [List.all_cons, Bool.and_eq_true] at h
    rw [List.map_cons, normChar_of_accepted y h.1, ih h.2]

theorem stripHash_of_all_accepted (ys : List Char) (h : ys.all accepted = true) :
    stripHash ys = ys := by
  cases ys with
  | nil => rfl
  | cons y ys =>
    rw [List.all_cons, Bool.and_eq_true] at h
    simp [stripHash, ne_hash_of_accepted y h.1]

theorem truthy_of_isNaN_str (s : String) (h : jsIsNaN (.str s) = true) :
    truthy (.str s) = true := by
  simp only [jsIsNaN, Bool.not_eq_true'] at h
  simp only [truthy, Bool.not_eq_true']
  cases he : s.isEmpty with
  | false => rfl
  | true =>
    rw [(String.isEmpty_iff s).mp he] at h
    exact absurd h (by decide)

/-! ## Claim theorems -/

/-- C1: every string tag that fails tag validation — the empty string and
`"###"` among them — makes `getPlayer(tag)` and `getClub(tag)` reject
with the invalid-tag error while the transport records zero calls. -/
theorem invalid_tag_rejects_before_transport (c : Client) (τ : Transport)
    (tag : String) (h : validate tag = false) :
    c.getPlayer τ tag = (.error .invalidTag, []) ∧
    c.getClub τ tag = (.error .invalidTag, []) ∧
    validate "" = false ∧ validate "###" = false := by
  refine ⟨?_, ?_, by decide, by decide⟩ <;>
    simp [Client.getPlayer, Client.getClub, h]

theorem invalid_tag_rejects_before_transport_check :
    validate "" = false ∧
    (Client.mk "t").getPlayer (fun _ => .ok .null) "" = (.error .invalidTag, []) :=
  ⟨by decide,
   (invalid_tag_rejects_before_transport ⟨"t"⟩ (fun _ => .ok .null) "" (by decide)).1⟩

/-- C2: a count argument that is provided (a number or a string, not the
absent `undefined`) and is non-numeric under `isNaN` makes
`getTopPlayers({count})` and `getTopClubs(count)` reject with the
count-type error while the transport records zero calls. -/
theorem non_numeric_count_rejects_before_transport (c : Client) (τ : Transport)
    (count brawler : JSVal) (h1 : jsIsNaN count = true) (h2 : count ≠ .undef) :
    c.getTopPlayers τ ⟨count, brawler⟩ = (.error .countNotNumber, []) ∧
    c.getTopClubs τ count = (.error .countNotNumber, []) := by
  have ht : truthy count = true := by
    cases count with
    | num n => exact absurd h1 (by simp [jsIsNaN])
    | str s => exact truthy_of_isNaN_str s h1
    | undef => exact absurd rfl h2
  constructor <;> simp [Client.getTopPlayers, Client.getTopClubs, ht, h1]

theorem non_numeric_count_rejects_before_transport_check :
    (jsIsNaN (.str "abc") = true ∧ JSVal.str "abc" ≠ .undef) ∧
    (Client.mk "t").getTopPlayers (fun _ => .ok .null) ⟨.str "abc", .undef⟩ =
      (.error .countNotNumber, []) :=
  ⟨⟨by decide, by decide⟩,
   (non_numeric_count_rejects_before_transport ⟨"t"⟩ (fun _ => .ok .null)
     (.str "abc") .undef (by decide) (by decide)).1⟩

/-- C8: constructing a `Client` without a token fails with the
configuration error; construction does not complete and no client value
is produced. -/
theorem construction_without_token_fails :
    Client.new ⟨none⟩ = .error .missingToken ∧
    (Client.new ⟨none⟩).isOk = false :=
  ⟨rfl, rfl⟩

/-- C10: a provided count of `0` is treated exactly as an absent count in
`getTopPlayers` and `getTopClubs`: the behavior coincides with the
omitted-count call, the single issued request carries no `count`
parameter, and the call reaches the transport and succeeds. -/
theorem count_zero_treated_as_absent (c : Client) (τ : Transport) :
    c.getTopPlayers τ ⟨.num 0, .undef⟩ = c.getTopPlayers τ ⟨.undef, .undef⟩ ∧
    c.getTopClubs τ (.num 0) = c.getTopClubs τ .undef ∧
    (c.getTopPlayers τ ⟨.num 0, .undef⟩).2.map Request.query = [[]] ∧
    (c.getTopClubs τ (.num 0)).2.map Request.query = [[]] ∧
    (c.getTopPlayers (fun _ => .ok (.arr [])) ⟨.num 0, .undef⟩).1 = .ok [] ∧
    (c.getTopClubs (fun _ => .ok (.arr [])) (.num 0)).1 = .ok [] :=
  ⟨rfl, rfl, rfl, rfl, rfl, rfl⟩

/-- C3: audit of the outbound URL and `Authorization` header of every
public operation. The non-leaderboard operations do hit
`https://brawlapi.cf/api/{endpoint}` with the configured token, but the
leaderboard operations pass endpoint strings with a leading slash
(`"/leaderboards/players"`, `"/leaderboards/clubs"`), so their URLs carry
a double slash after `/api` and differ from the documented
`/api/leaderboards/...` paths. -/
theorem outbound_url_and_header_audit (c : Client) (τ : Transport) (q : String) :
    ((c.getPlayer τ "2PP").2.map (fun r => (r.url, r.headers)) =
      [("https://brawlapi.cf/api/player", [("Authorization", c.token)])]) ∧
    ((c.getClub τ "2PP").2.map (fun r => (r.url, r.headers)) =
      [("https://brawlapi.cf/api/club", [("Authorization", c.token)])]) ∧
    ((c.about τ).2.map (fun r => (r.url, r.headers)) =
      [("https://brawlapi.cf/api/about", [("Authorization", c.token)])]) ∧
    ((c.getMisc τ).2.map Request.url = ["https://brawlapi.cf/api/misc"]) ∧
    ((c.getEndpoints τ).2.map Request.url = ["https://brawlapi.cf/api/"]) ∧
    ((c.getUpcomingEvents τ).2.map Request.url = ["https://brawlapi.cf/api/events"]) ∧
    ((c.getCurrentEvents τ).2.map Request.url = ["https://brawlapi.cf/api/events"]) ∧
    ((c.clubSearch τ q).2.map Request.url = ["https://brawlapi.cf/api/clubSearch"]) ∧
    ((c.getTopPlayers τ ⟨.undef, .undef⟩).2.map (fun r => (r.url, r.headers)) =
      [("https://brawlapi.cf/api//leaderboards/players", [("Authorization", c.token)])]) ∧
    ((c.getTopClubs τ .undef).2.map Request.url =
      ["https://brawlapi.cf/api//leaderboards/clubs"]) ∧
    ("https://brawlapi.cf/api//leaderboards/players" ≠
      "https://brawlapi.cf/api/leaderboards/players") := by
  refine ⟨rfl, rfl, rfl, rfl, rfl, rfl, rfl, rfl, rfl, rfl, by decide⟩

/-- C4: with the transport returning a raw JSON array `xs` for the list
endpoints, `getTopClubs`, `getTopPlayers` and `clubSearch` resolve to the
element-wise wrapping of `xs` — same length, same order — and an empty
input array yields the empty sequence rather than an error. -/
theorem list_endpoints_wrap_in_order (c : Client) (xs : List Json) (q : String) :
    ((c.getTopClubs (fun _ => .ok (.arr xs)) .undef).1 =
      .ok (xs.map (fun j => (⟨c, j⟩ : Club)))) ∧
    ((c.getTopPlayers (fun _ => .ok (.arr xs)) ⟨.undef, .undef⟩).1 =
      .ok (xs.map (fun j => (⟨c, j⟩ : Player)))) ∧
    ((c.clubSearch (fun _ => .ok (.arr xs)) q).1 =
      .ok (xs.map (fun j => (⟨c, j⟩ : Club)))) ∧
    ((c.clubSearch (fun _ => .ok (.arr xs)) q).1.map List.length = .ok xs.length) ∧
    ((c.getTopClubs (fun _ => .ok (.arr [])) .undef).1 = .ok []) ∧
    ((c.clubSearch (fun _ => .ok (.arr [])) q).1 = .ok []) := by
  refine ⟨rfl, rfl, rfl, ?_, rfl, rfl⟩
  have hsearch : (c.clubSearch (fun _ => .ok (.arr xs)) q).1 =
      .ok (xs.map (fun j => (⟨c, j⟩ : Club))) := rfl
  rw [hsearch]
  simp [Except.map]

/-- C5 counterexample: the claim instantiates the propagation property at
`getClub("ABC")`, but `"ABC"` fails tag validation (`A` and `B` are
outside the accepted alphabet), so with a transport stub rejecting with a
network error `getClub("ABC")` rejects with the invalid-tag error — not
the transport's error — and issues no request at all. -/
theorem transport_error_claim_fails_on_ABC :
    validate "ABC" = false ∧
    ((Client.mk "t").getClub (fun _ => .error (.external "network")) "ABC").1 =
      .error .invalidTag ∧
    JSError.invalidTag ≠ JSError.external "network" ∧
    ((Client.mk "t").getClub (fun _ => .error (.external "network")) "ABC").2 = [] :=
  ⟨by decide, rfl, by decide, rfl⟩

/-- C5 amended: for every transport-level failure `e` and every public
operation whose local validation passes (for tags, any tag with
`validate(tag) = true`, e.g. `"2PP"`), the operation rejects with the very
same error `e`, unmodified. -/
theorem transport_error_propagates_unmodified (c : Client) (e : JSError)
    (tag q : String) (h : validate tag = true) :
    ((c.getClub (fun _ => .error e) tag).1 = .error e) ∧
    ((c.getPlayer (fun _ => .error e) tag).1 = .error e) ∧
    ((c.getTopPlayers (fun _ => .error e) ⟨.undef, .undef⟩).1 = .error e) ∧
    ((c.getTopClubs (fun _ => .error e) .undef).1 = .error e) ∧
    ((c.clubSearch (fun _ => .error e) q).1 = .error e) ∧
    ((c.about (fun _ => .error e)).1 = .error e) ∧
    ((c.getMisc (fun _ => .error e)).1 = .error e) ∧
    ((c.getUpcomingEvents (fun _ => .error e)).1 = .error e) ∧
    ((c.getCurrentEvents (fun _ => .error e)).1 = .error e) ∧
    ((c.getEndpoints (fun _ => .error e)).1 = .error e) := by
  refine ⟨?_, ?_, rfl, rfl, rfl, rfl, rfl, rfl, rfl, rfl⟩ <;>
    simp [Client.getClub, Client.getPlayer, Client._get, h, Except.map]

theorem transport_error_propagates_unmodified_check :
    validate "2PP" = true ∧
    ((Client.mk "t").getClub (fun _ => .error (.external "network")) "2PP").1 =
      .error (.external "network") :=
  ⟨by decide,
   (transport_error_propagates_unmodified ⟨"t"⟩ (.external "network") "2PP" "q"
     (by decide)).1⟩

/-- C6 counterexample: `clubSearch("")` hands the transport a query
mapping whose `query` key is present with an empty-string value — a
present-with-empty-value parameter, not an omitted one. -/
theorem empty_query_value_reaches_transport :
    ((Client.mk "t").clubSearch (fun _ => .ok (.arr [])) "").2.map Request.query =
      [[("query", JSVal.str "")]] ∧
    truthy (JSVal.str "") = false :=
  ⟨rfl, rfl⟩

/-- C6 amended: `getTopPlayers` and `getTopClubs` omit falsy parameters —
every key in the query they pass to the transport has a truthy value —
while `clubSearch`, `getPlayer`/`getClub` and the events methods always
include their fixed key, whatever its value. -/
theorem query_construction_audit (c : Client) (τ : Transport)
    (opts : TopOptions) (count : JSVal) (q ty : String) :
    ((c.getTopPlayers τ opts).2.all
        (fun r => r.query.all (fun kv => truthy kv.2)) = true) ∧
    ((c.getTopClubs τ count).2.all
        (fun r => r.query.all (fun kv => truthy kv.2)) = true) ∧
    ((c.clubSearch τ q).2.map Request.query = [[("query", JSVal.str q)]]) ∧
    ((c._events τ ty).2.map Request.query = [[("type", JSVal.str ty)]]) := by
  refine ⟨?_, ?_, rfl, rfl⟩
  · by_cases h1 : truthy opts.count = true
    · by_cases hn : jsIsNaN opts.count = true
      · simp [Client.getTopPlayers, h1, hn]
      · by_cases h2 : truthy opts.brawler = true <;>
          simp [Client.getTopPlayers, Client._get, h1, hn, h2]
    · by_cases h2 : truthy opts.brawler = true <;>
        simp [Client.getTopPlayers, Client._get, h1, h2]
  · by_cases h1 : truthy count = true
    · by_cases hn : jsIsNaN count = true
      · simp [Client.getTopClubs, h1, hn]
      · simp [Client.getTopClubs, Client._get, h1, hn]
    · simp [Client.getTopClubs, Client._get, h1]

/-- C7 counterexample: the empty string consists — vacuously — solely of
the accepted alphabet after stripping a leading `#` and case-folding with
`O`→`0`, yet `validate("")` is false: `validate` rejects the empty tag. -/
theorem wellformed_empty_tag_fails_validation :
    tagWellFormed "" = true ∧ validate "" = false :=
  ⟨by decide, by decide⟩

/-- C7 amended: for every nonempty string consisting solely of the
accepted alphabet after stripping a leading `#` and case-folding with
`O`→`0`, `validate` holds, and `clean` — which strips one leading `#`,
uppercases and rewrites `O` to `0` — is idempotent on it. -/
theorem validate_and_clean_idempotent (s : String) (hne : s ≠ "")
    (h : tagWellFormed s = true) :
    validate s = true ∧ clean (clean s) = clean s := by
  have h' : ((stripHash s.toList).map normChar).all accepted = true := h
  constructor
  · have he : s.isEmpty = false := by
      cases he : s.isEmpty
      · rfl
      · exact absurd ((String.isEmpty_iff s).mp he) hne
    have hm : (stripHash s.toList).all (accepted ∘ normChar) = true := by
      rw [← List.all_map]
      exact h'
    simp only [validate, he, Bool.not_false, Bool.true_and]
    simpa [Function.comp] using hm
  · simp only [clean]
    have ht : (String.mk ((stripHash s.toList).map normChar)).toList =
        (stripHash s.toList).map normChar := rfl
    rw [ht, stripHash_of_all_accepted _ h', map_normChar_of_all_accepted _ h']

theorem validate_and_clean_idempotent_check :
    ("#o2" ≠ "" ∧ tagWellFormed "#o2" = true) ∧
    (validate "#o2" = true ∧ clean (clean "#o2") = clean "#o2") :=
  ⟨⟨by decide, by decide⟩, validate_and_clean_idempotent "#o2" (by decide) (by decide)⟩

/-- C9: with the transport returning `raw` for the single-object
endpoints, `getPlayer`/`getClub` resolve to the wrapper of that exact
record whose back-reference is the originating client, and every element
produced by the list endpoints carries the originating client as its
back-reference. -/
theorem backreference_equals_originating_client (c : Client) (raw : Json)
    (xs : List Json) (tag q : String) (h : validate tag = true) :
    ((c.getPlayer (fun _ => .ok raw) tag).1 = .ok ⟨c, raw⟩) ∧
    ((Player.mk c raw).client = c ∧ (Player.mk c raw).raw = raw) ∧
    ((c.getClub (fun _ => .ok raw) tag).1 = .ok ⟨c, raw⟩) ∧
    ((c.clubSearch (fun _ => .ok (.arr xs)) q).1.map (fun l => l.map Club.client) =
      .ok (xs.map (fun _ => c))) ∧
    ((c.getTopClubs (fun _ => .ok (.arr xs)) .undef).1.map (fun l => l.map Club.client) =
      .ok (xs.map (fun _ => c))) := by
  refine ⟨?_, ⟨rfl, rfl⟩, ?_, ?_, ?_⟩
  · simp [Client.getPlayer, Client._get, h, Except.map]
  · simp [Client.getClub, Client._get, h, Except.map]
  · have hs : (c.clubSearch (fun _ => .ok (.arr xs)) q).1 =
        .ok (xs.map (fun j => (⟨c, j⟩ : Club))) := rfl
    rw [hs]
    show Except.ok ((xs.map (fun j => (⟨c, j⟩ : Club))).map Club.client) = _
    rw [List.map_map]
    rfl
  · have hs : (c.getTopClubs (fun _ => .ok (.arr xs)) .undef).1 =
        .ok (xs.map (fun j => (⟨c, j⟩ : Club))) := rfl
    rw [hs]
    show Except.ok ((xs.map (fun j => (⟨c, j⟩ : Club))).map Club.client) = _
    rw [List.map_map]
    rfl

theorem backreference_equals_originating_client_check :
    validate "2PP" = true ∧
    ((Client.mk "t").getPlayer (fun _ => .ok (.obj [("tag", .str "#ABC123")])) "2PP").1 =
      .ok ⟨⟨"t"⟩, .obj [("tag", .str "#ABC123")]⟩ :=
  ⟨by decide,
   (backreference_equals_originating_client ⟨"t"⟩ (.obj [("tag", .str "#ABC123")])
     [] "2PP" "" (by decide)).1⟩

end BrawlStars
